import Mathlib

/-
Verification of contrib/run_clippy.py: a wrapper that builds a fixed cargo
clippy argument vector, prints it, runs the child process synchronously and
propagates its exit status.

The script is embedded shallowly.  Side effects are made explicit as a trace
of events (diagnostic prints, process-creation calls, process-exit calls).
The behaviour of the external child process is a parameter of the model: an
`Env` carries the wrapper's command-line arguments, the environment
variables, and a function giving, for an argument vector, either a launch
error (the binary could not be started) or the child's integer exit status.
-/

namespace RunClippy

/-- Failure to create the child process at all (e.g. binary not found).
Carries the host-reported error text. -/
structure LaunchError where
  message : String
deriving DecidableEq, Repr

/-- Redirection target for one of the child's standard streams, when the
process-creation call requests one.  `none` at the call site means the
stream is inherited from the caller. -/
inductive Redirect
  | pipe
  | devnull
  | toFile (path : String)
deriving DecidableEq, Repr

/-- One process-creation call, with the argument vector and the keyword
options of `subprocess.run` that govern stream handling and timeouts. -/
structure SpawnCall where
  args : List String
  stdout : Option Redirect
  stderr : Option Redirect
  stdin : Option Redirect
  capture_output : Bool
  timeout : Option Nat
deriving DecidableEq, Repr

/-- Result object of a completed child process (`subprocess.CompletedProcess`):
only the `returncode` field is used by the script. -/
structure CompletedProcess where
  returncode : Int
deriving DecidableEq, Repr

/-- Observable side effects of running the module. -/
inductive Event
  | print (line : String)
  | spawn (call : SpawnCall)
  | exit (code : Int)
deriving DecidableEq, Repr

/-- Whether an event is a diagnostic print. -/
def Event.isPrint : Event → Bool
  | Event.print _ => true
  | _ => false

/-- Whether an event is a process-exit call. -/
def Event.isExit : Event → Bool
  | Event.exit _ => true
  | _ => false

/-- Execution environment of the wrapper: its own command-line arguments,
the environment variables, and the behaviour of the external child process
(launch error or exit status, as a function of the argument vector). -/
structure Env where
  argv : List String
  envVars : List (String × String)
  child : List String → Except LaunchError Int

/-- The argument vector built at the start of `main` (source lines 13-20). -/
def cmd : List String :=
  ["cargo", "clippy",
   "--workspace",
   "--all-features",
   "--all-targets",
   "--target-dir", "target/clippy",
   "--", "-D", "warnings", "-A", "mismatched_lifetime_syntaxes"]

/-- The diagnostic line printed by `main` (source line 22). -/
def printedLine : String := "Running: " ++ String.intercalate " " cmd

/-- The process-creation call made by `main` (source line 23):
`subprocess.run(cmd)` with no stream redirection, no capture and no
timeout. -/
def runCall : SpawnCall := ⟨cmd, none, none, none, false, none⟩

/-- The `main` function of the script: print the command line, run the child
process, return its exit status.  The trace records the print and the spawn
attempt; a launch failure is an uncaught exception, so the result is an
`Except`. -/
def main (env : Env) : List Event × Except LaunchError Int :=
  let trace := [Event.print printedLine, Event.spawn runCall]
  match env.child cmd with
  | Except.error e => (trace, Except.error e)
  | Except.ok code =>
      let result : CompletedProcess := ⟨code⟩
      (trace, Except.ok result.returncode)

/-- The body of the `__main__` guard (source line 28): `sys.exit(main())`.
A normal return of `main` becomes a process-exit call with that code; an
uncaught launch error propagates. -/
def runAsMain (env : Env) : List Event × Except LaunchError Unit :=
  match main env with
  | (tr, Except.error e) => (tr, Except.error e)
  | (tr, Except.ok code) => (tr ++ [Event.exit code], Except.ok ())

/-- Top level of the module: importing it (isMain = false) only defines
`main`; executing it as the main program (isMain = true) runs the guard
body. -/
def moduleTopLevel (isMain : Bool) (env : Env) :
    List Event × Except LaunchError Unit :=
  if isMain then runAsMain env else ([], Except.ok ())

/-- Lines printed in a trace, in order. -/
def printsOf (tr : List Event) : List String :=
  tr.filterMap fun e =>
    match e with
    | Event.print l => some l
    | _ => none

/-- Process-creation calls in a trace, in order. -/
def spawnCallsOf (tr : List Event) : List SpawnCall :=
  tr.filterMap fun e =>
    match e with
    | Event.spawn c => some c
    | _ => none

/-- Argument vectors of the process-creation calls in a trace, in order. -/
def spawnArgsOf (tr : List Event) : List (List String) :=
  (spawnCallsOf tr).map SpawnCall.args

/-- Codes of the process-exit calls in a trace, in order. -/
def exitCodesOf (tr : List Event) : List Int :=
  tr.filterMap fun e =>
    match e with
    | Event.exit c => some c
    | _ => none

/-- Splitting a character list on spaces, dropping empty pieces. -/
def splitSpacesAux : List Char → List Char → List (List Char)
  | [], acc => if acc = [] then [] else [acc.reverse]
  | c :: rest, acc =>
      if c = ' ' then
        if acc = [] then splitSpacesAux rest []
        else acc.reverse :: splitSpacesAux rest []
      else splitSpacesAux rest (c :: acc)

/-- Tokenizing a string on whitespace (empty tokens dropped). -/
def tokenize (s : String) : List String :=
  (splitSpacesAux s.data []).map fun cs => String.mk cs

/-- Environment whose child process always starts and exits with the given
code. -/
def okEnv (code : Int) : Env := ⟨[], [], fun _ => Except.ok code⟩

/-- Environment whose child process cannot be launched at all. -/
def failEnv : Env :=
  ⟨[], [], fun _ => Except.error ⟨"No such file or directory"⟩⟩

/-- Claim C1: for every integer exit status returned by the child process,
the wrapper's own exit status is exactly that value: `main` returns the
child's returncode unchanged, and the module guard passes exactly that value
(0 or non-zero alike, untranslated) to the process-exit call. -/
theorem c1_exit_status_propagated (env : Env) (code : Int)
    (h : env.child cmd = Except.ok code) :
    (main env).2 = Except.ok code ∧
    exitCodesOf (moduleTopLevel true env).1 = [code] := by
  simp [main, moduleTopLevel, runAsMain, exitCodesOf, h]

/-- Witness for C1 at a child exiting with status 7. -/
theorem c1_exit_status_propagated_witness :
    (main (okEnv 7)).2 = Except.ok 7 ∧
    exitCodesOf (moduleTopLevel true (okEnv 7)).1 = [7] :=
  c1_exit_status_propagated (okEnv 7) 7 rfl

/-- Claim C2 counterexample: in a concrete run the single line printed to
standard output is `printedLine`, and tokenizing that line on whitespace
does not equal the fixed argument vector: the line carries the extra leading
token "Running:". -/
theorem c2_tokenized_line_counterexample :
    printsOf (main (okEnv 0)).1 = [printedLine] ∧
    tokenize printedLine ≠ cmd := by
  exact ⟨rfl, by decide⟩

/-- Claim C2 (amended): the single line printed by `main`, tokenized on
whitespace, equals the literal token "Running:" followed by exactly the
fixed argument sequence in the documented order: tool name, workspace,
all-features and all-targets flags, the output-directory override with its
value, then the trailing lint-level arguments, with no other tokens. -/
theorem c2_tokenized_line_amended (env : Env) :
    printsOf (main env).1 = [printedLine] ∧
    tokenize printedLine = "Running:" :: cmd := by
  refine ⟨?_, by decide⟩
  cases h : env.child cmd <;> simp [main, printsOf, h]

/-- Claim C3: if the child process cannot be launched, `main` does not catch
or translate the error: the launch failure propagates uncaught (through the
module guard as well), the wrapper never reaches a normal exit call, and the
outcome is distinguishable from every normal tool exit status. -/
theorem c3_launch_failure_propagates (env : Env) (e : LaunchError)
    (h : env.child cmd = Except.error e) :
    (main env).2 = Except.error e ∧
    (∀ n : Int, (main env).2 ≠ Except.ok n) ∧
    (moduleTopLevel true env).2 = Except.error e ∧
    exitCodesOf (moduleTopLevel true env).1 = [] := by
  simp [main, moduleTopLevel, runAsMain, exitCodesOf, h]

/-- Witness for C3 at a child binary absent from the search path. -/
theorem c3_launch_failure_propagates_witness :
    (main failEnv).2 = Except.error ⟨"No such file or directory"⟩ ∧
    (∀ n : Int, (main failEnv).2 ≠ Except.ok n) ∧
    (moduleTopLevel true failEnv).2 =
      Except.error ⟨"No such file or directory"⟩ ∧
    exitCodesOf (moduleTopLevel true failEnv).1 = [] :=
  c3_launch_failure_propagates failEnv ⟨"No such file or directory"⟩ rfl

/-- Claim C4: the constructed argument vector is a fixed constant: under any
two environments (any command-line arguments, any environment variables, any
child behaviour) the spawned argument vectors, and indeed the entire traces
of `main`, coincide, and the vector is always `cmd`. -/
theorem c4_argument_vector_constant (env1 env2 : Env) :
    spawnArgsOf (main env1).1 = spawnArgsOf (main env2).1 ∧
    spawnArgsOf (main env1).1 = [cmd] ∧
    (main env1).1 = (main env2).1 := by
  cases h1 : env1.child cmd <;> cases h2 : env2.child cmd <;>
    simp [main, spawnArgsOf, spawnCallsOf, runCall, h1, h2]

/-- Claim C5: in every execution of `main` the trace is exactly one
diagnostic print of the rendered argument sequence followed by the single
process-creation call, so the line is emitted strictly before the child is
created and exactly one such line is printed per invocation. -/
theorem c5_print_before_spawn (env : Env) :
    ∃ c : SpawnCall, (main env).1 = [Event.print printedLine, Event.spawn c] := by
  refine ⟨runCall, ?_⟩
  cases h : env.child cmd <;> simp [main, h]

/-- Claim C6: the argument vector passed to the process-creation call is
element-for-element the vector that was constructed and rendered for
printing: the spawned vector is `cmd` and the printed line is exactly the
rendering of `cmd`. -/
theorem c6_no_mutation_between_print_and_spawn (env : Env) :
    spawnArgsOf (main env).1 = [cmd] ∧
    printsOf (main env).1 = ["Running: " ++ String.intercalate " " cmd] := by
  cases h : env.child cmd <;>
    simp [main, spawnArgsOf, spawnCallsOf, printsOf, runCall, printedLine, h]

/-- Claim C7: each invocation of `main` creates the child process exactly
once — one process-creation call in the trace whatever the child's outcome,
with no timeout set and no retry. -/
theorem c7_spawn_exactly_once (env : Env) :
    spawnCallsOf (main env).1 = [runCall] ∧
    (spawnCallsOf (main env).1).length = 1 ∧
    runCall.timeout = none := by
  cases h : env.child cmd <;> simp [main, spawnCallsOf, runCall, h]

/-- Claim C8: the single process-creation call supplies no redirection,
capture or buffering of the child's standard streams: stdout, stderr and
stdin are inherited and capture is off. -/
theorem c8_streams_inherited (env : Env) :
    spawnCallsOf (main env).1 = [runCall] ∧
    runCall.stdout = none ∧
    runCall.stderr = none ∧
    runCall.stdin = none ∧
    runCall.capture_output = false := by
  cases h : env.child cmd <;> simp [main, spawnCallsOf, runCall, h]

/-- Claim C9: the argument vector handed to the process-creation call is
exactly the 12-element list with the literal output directory
"target/clippy", the literal separator "--" before the lint-level
arguments, and the single suppressed lint "mismatched_lifetime_syntaxes". -/
theorem c9_argument_vector_literal (env : Env) :
    spawnArgsOf (main env).1 =
      [["cargo", "clippy", "--workspace", "--all-features", "--all-targets",
        "--target-dir", "target/clippy",
        "--", "-D", "warnings", "-A", "mismatched_lifetime_syntaxes"]] := by
  cases h : env.child cmd <;>
    simp [main, spawnArgsOf, spawnCallsOf, runCall, h] <;> rfl

/-- Claim C10: importing the module performs no side effects (empty trace,
normal completion); `main` itself makes no process-exit call and returns an
integer; the exit call happens only under the main-program guard, with
exactly `main`'s return value, and only when `main` returns normally. -/
theorem c10_import_has_no_side_effects (env : Env) :
    (moduleTopLevel false env).1 = [] ∧
    (moduleTopLevel false env).2 = Except.ok () ∧
    (main env).1.all (fun ev => !ev.isExit) = true ∧
    (moduleTopLevel true env).1 =
      (main env).1 ++
        (match (main env).2 with
         | Except.ok code => [Event.exit code]
         | Except.error _ => []) := by
  cases h : env.child cmd <;>
    simp [main, moduleTopLevel, runAsMain, Event.isExit, h]

end RunClippy
